import Mathlib

/-!
Verification of the `LightWebComponent` class (the Render Pipeline Host of the
component-library repository) against its natural-language specification.

The class is shallowly embedded as a pure state machine.  The mutable fields of
the TypeScript class become a Lean structure; every public or private method of
the class becomes a function from state to a pair of a new state and a trace of
observable events (pipeline executions, lifecycle-hook invocations, error log
lines, shadow-DOM writes).  Writes onto the host element (as performed by
`Object.assign` inside `updateProperties`) are modelled through an explicit
table of property descriptors, since interception rewrites descriptors; a write
that the JavaScript `[[Set]]` semantics would reject (a non-writable own data
property, or a host accessor whose setter throws) is reported through a Boolean
throw flag, matching the `TypeError` that `Object.assign` raises.
-/

/-- One step of the render pipeline, as pushed into `customRenderPipeline` by
the constructor: the optional `preRender` hook, the optional custom `render`
hook, the built-in `defaultRenderPipeline`, or the optional `postRender`
hook. -/
inductive Step where
  | preHook : Step
  | renderHook : Step
  | defaultStep : Step
  | postHook : Step
deriving DecidableEq, Repr

/-- Observable events emitted while the component executes.  `pipelineRun`
marks that `runRenderPipeline` passed both of its guards and executed the step
sequence; the four hook events mark individual steps; `logError` models a
`console.error` call; `domWrite` models the assignment to
`shadow.innerHTML`. -/
inductive Event where
  | pipelineRun : Event
  | preRender : Event
  | customRender : Event
  | defaultRender : Event
  | postRender : Event
  | logError (msg : String) : Event
  | domWrite (html : String) : Event
deriving DecidableEq, Repr

/-- An own-property descriptor of the host element, as inspected and rewritten
by `watchForFieldChanges` and written through by `Object.assign`:
a plain data property with its three descriptor flags, a host-defined accessor
property (whose setter may throw), or the accessor installed by the component
itself, which redirects reads and writes to `shadowProperties`. -/
inductive Desc where
  | data (v : Int) (writable configurable enumerable : Bool) : Desc
  | hostAccessor (setterThrows : Bool) : Desc
  | intercepted : Desc
deriving DecidableEq, Repr

/-- The static shape of the host element consumed by the component: the
`observedAttributes` list declared on its constructor, the presence of the
three optional lifecycle hooks, and the evaluation behaviour of the host when
a template string is evaluated as a template literal with the host as `this`
(`none` models an evaluation that throws). -/
structure HostCfg where
  observedAttributes : Option (List String)
  hasPreRender : Bool
  hasRender : Bool
  hasPostRender : Bool
  tmplEval : String → Option String

/-- The mutable fields of the `LightWebComponent` class.  `shadowHTML` is the
current `innerHTML` of the attached shadow root. -/
structure LightWebComponent where
  renderPipelineEnabled : Bool
  rawTemplate : Option String
  rawStyles : Option String
  shadowProperties : List (String × Int)
  customRenderPipeline : List Step
  shadowHTML : String

/-- The whole system: host configuration, the host element table of own
property descriptors, and the component instance. -/
structure Sys where
  cfg : HostCfg
  props : List (String × Desc)
  comp : LightWebComponent

/-- Association-list lookup, first match wins (JavaScript object key lookup). -/
def lookupA {α : Type} : List (String × α) → String → Option α
  | [], _ => none
  | kv :: rest, k => if kv.1 = k then some kv.2 else lookupA rest k

/-- Association-list update: replace the first binding of the key, or append a
new binding (JavaScript object key assignment). -/
def setA {α : Type} : List (String × α) → String → α → List (String × α)
  | [], k, v => [(k, v)]
  | kv :: rest, k, v => if kv.1 = k then (k, v) :: rest else kv :: setA rest k v

/-- The `template || null` idiom of the constructor: an absent or empty string
is stored as `null`. -/
def strOrNull : Option String → Option String
  | none => none
  | some s => if s = "" then none else some s

/-- JavaScript truthiness of a nullable string: `null` and the empty string
are falsy. -/
def truthyStr : Option String → Bool
  | none => false
  | some s => if s = "" then false else true

/-- The string spliced into the template literal by `evaluateTemplate`; a
`null` template interpolates as the text `null`. -/
def templateSource : Option String → String
  | some t => t
  | none => "null"

/-- The message logged by `runRenderPipeline` when template or styles are not
configured. -/
def configErrorMsg : String :=
  "Template or styles not configured - please run configureTemplate first"

/-- The message logged by `evaluateTemplate` when evaluation throws. -/
def evalErrorMsg : String := "Error evaluating template:"

/-- The constructor: attaches an (empty) shadow root, stores
`template || null` and `styles || null`, enables the pipeline and builds the
fixed step sequence `[preRender?, render or defaultRenderPipeline,
postRender?]` from the hooks present on the host. -/
def construct (cfg : HostCfg) (props : List (String × Desc))
    (template? styles? : Option String) : Sys :=
  { cfg := cfg
    props := props
    comp :=
      { renderPipelineEnabled := true
        rawTemplate := strOrNull template?
        rawStyles := strOrNull styles?
        shadowProperties := []
        customRenderPipeline :=
          (if cfg.hasPreRender then [Step.preHook] else [])
            ++ [if cfg.hasRender then Step.renderHook else Step.defaultStep]
            ++ (if cfg.hasPostRender then [Step.postHook] else [])
        shadowHTML := "" } }

/-- `evaluateTemplate`: evaluates the stored template as a template literal in
host context; a throw is caught, logged, and turned into the empty string. -/
def evaluateTemplate (s : Sys) : String × List Event :=
  match s.cfg.tmplEval (templateSource s.comp.rawTemplate) with
  | some r => (r, [])
  | none => ("", [Event.logError evalErrorMsg])

/-- `renderTemplate`: replaces the whole shadow-root content with a style block
followed by the rendered template. -/
def renderTemplate (s : Sys) (template : String) (styles : Option String) :
    Sys × List Event :=
  let html := "<style>" ++ (styles.getD "") ++ "</style>" ++ template
  ({ s with comp := { s.comp with shadowHTML := html } }, [Event.domWrite html])

/-- `defaultRenderPipeline`: evaluate the template, evaluate the styles (which
just returns `rawStyles`), and render both into the shadow root. -/
def defaultRenderPipeline (s : Sys) : Sys × List Event :=
  let r1 := evaluateTemplate s
  let r2 := renderTemplate s r1.1 s.comp.rawStyles
  (r2.1, r1.2 ++ r2.2)

/-- Executes one step of `customRenderPipeline`.  Hook steps are external host
code: they emit their marker event.  The default step additionally performs
the default render. -/
def runStep (s : Sys) : Step → Sys × List Event
  | Step.preHook => (s, [Event.preRender])
  | Step.renderHook => (s, [Event.customRender])
  | Step.defaultStep =>
      let r := defaultRenderPipeline s
      (r.1, Event.defaultRender :: r.2)
  | Step.postHook => (s, [Event.postRender])

/-- `customRenderPipeline.forEach((step) => step())`. -/
def runSteps : Sys → List Step → Sys × List Event
  | s, [] => (s, [])
  | s, st :: rest =>
      let r1 := runStep s st
      let r2 := runSteps r1.1 rest
      (r2.1, r1.2 ++ r2.2)

/-- `runRenderPipeline`: returns silently when the pipeline is paused, logs
and returns when template or styles are falsy, and otherwise executes every
step of the fixed sequence in order. -/
def runRenderPipeline (s : Sys) : Sys × List Event :=
  if s.comp.renderPipelineEnabled then
    if truthyStr s.comp.rawTemplate && truthyStr s.comp.rawStyles then
      let r := runSteps s s.comp.customRenderPipeline
      (r.1, Event.pipelineRun :: r.2)
    else (s, [Event.logError configErrorMsg])
  else (s, [])

/-- `pauseRenderPipeline`: clears the enabled flag. -/
def pauseRenderPipeline (s : Sys) : Sys :=
  { s with comp := { s.comp with renderPipelineEnabled := false } }

/-- `resumeRenderPipeline`: sets the enabled flag. -/
def resumeRenderPipeline (s : Sys) : Sys :=
  { s with comp := { s.comp with renderPipelineEnabled := true } }

/-- `getInterceptedProperty`: reads the stored value. -/
def getInterceptedProperty (s : Sys) (name : String) : Option Int :=
  lookupA s.comp.shadowProperties name

/-- `setInterceptedProperty`: stores the value and runs the render pipeline. -/
def setInterceptedProperty (s : Sys) (name : String) (v : Int) :
    Sys × List Event :=
  runRenderPipeline
    { s with comp :=
        { s.comp with shadowProperties := setA s.comp.shadowProperties name v } }

/-- One property write of `Object.assign(this.el, properties)`, through the
`[[Set]]` semantics: a write to an intercepted property goes through
`setInterceptedProperty`; a write to a writable data property updates it; a
write to a non-writable data property makes `Object.assign` throw a
`TypeError` (flag `true`); a host accessor either absorbs the write or throws;
a missing property is created as a plain data property. -/
def assign1 (s : Sys) (name : String) (v : Int) : Sys × List Event × Bool :=
  match lookupA s.props name with
  | some Desc.intercepted =>
      let r := setInterceptedProperty s name v
      (r.1, r.2, false)
  | some (Desc.data _ w c e) =>
      if w then
        ({ s with props := setA s.props name (Desc.data v w c e) }, [], false)
      else (s, [], true)
  | some (Desc.hostAccessor t) => (s, [], t)
  | none =>
      ({ s with props := setA s.props name (Desc.data v true true true) },
        [], false)

/-- `Object.assign(this.el, properties)`: writes each key in order, stopping
at the first throwing write, whose exception propagates. -/
def assignProps : Sys → List (String × Int) → Sys × List Event × Bool
  | s, [] => (s, [], false)
  | s, kv :: rest =>
      let r1 := assign1 s kv.1 kv.2
      if r1.2.2 then (r1.1, r1.2.1, true)
      else
        let r2 := assignProps r1.1 rest
        (r2.1, r1.2.1 ++ r2.2.1, r2.2.2)

/-- `updateProperties`: pause, assign the patch, resume in a `finally` block,
and run the pipeline once - unless the assignment threw, in which case the
exception propagates (flag `true`) right after the `finally` resume, skipping
the trailing `runRenderPipeline` call. -/
def updateProperties (s : Sys) (patch : List (String × Int)) :
    Sys × List Event × Bool :=
  let r := assignProps (pauseRenderPipeline s) patch
  let s3 := resumeRenderPipeline r.1
  if r.2.2 then (s3, r.2.1, true)
  else
    let r2 := runRenderPipeline s3
    (r2.1, r.2.1 ++ r2.2, false)

/-- The interception test of `watchForFieldChanges`: a property qualifies
exactly when its own descriptor is a data descriptor whose `configurable`,
`writable` and `enumerable` flags are all set; the payload is the current
value that gets copied into `shadowProperties`. -/
def interceptV : Option Desc → Option Int
  | some (Desc.data v true true true) => some v
  | _ => none

/-- The body of the `for (const attr of observedAttributes)` loop: when the
descriptor qualifies, copy the current value into `shadowProperties` and
replace the property with the redirecting accessor; otherwise skip the name
silently. -/
def watchOne (s : Sys) (attr : String) : Sys :=
  match interceptV (lookupA s.props attr) with
  | some v =>
      { s with
        props := setA s.props attr Desc.intercepted
        comp :=
          { s.comp with
            shadowProperties := setA s.comp.shadowProperties attr v } }
  | none => s

/-- `watchForFieldChanges`: iterates over the `observedAttributes` of the host
constructor, when the list exists. -/
def watchForFieldChanges (s : Sys) : Sys :=
  match s.cfg.observedAttributes with
  | some attrs => attrs.foldl watchOne s
  | none => s

/-- `configureTemplate`: overwrites template and styles, then (per the merged
settings, both defaulting to `true`) watches for field changes and performs an
immediate render. -/
def configureTemplate (s : Sys) (template styles : String)
    (watchFields immediateRender : Bool) : Sys × List Event :=
  let s1 :=
    { s with comp :=
        { s.comp with rawTemplate := some template, rawStyles := some styles } }
  let s2 := if watchFields then watchForFieldChanges s1 else s1
  if immediateRender then runRenderPipeline s2 else (s2, [])

/-- Recognizer for the `pipelineRun` event. -/
def isRun : Event → Bool
  | Event.pipelineRun => true
  | _ => false

/-- Number of render-pipeline executions recorded in a trace. -/
def countRuns (l : List Event) : Nat := (l.filter isRun).length

/-- The pipeline step announced by an event, if any. -/
def stepMarker : Event → Option Step
  | Event.preRender => some Step.preHook
  | Event.customRender => some Step.renderHook
  | Event.defaultRender => some Step.defaultStep
  | Event.postRender => some Step.postHook
  | _ => none

/-- The sequence of pipeline steps executed during a trace, in order. -/
def stepMarkers (l : List Event) : List Step := l.filterMap stepMarker

theorem lookupA_setA_self {α : Type} (l : List (String × α)) (k : String) (v : α) :
    lookupA (setA l k v) k = some v := by
  induction l with
  | nil => simp [lookupA, setA]
  | cons kv rest ih =>
      by_cases h : kv.1 = k
      · simp [lookupA, setA, h]
      · simp [lookupA, setA, h, ih]

theorem lookupA_setA_ne {α : Type} (l : List (String × α)) (k : String) (v : α)
    (k' : String) (h : k' ≠ k) : lookupA (setA l k v) k' = lookupA l k' := by
  have hkk : k ≠ k' := fun hc => h hc.symm
  induction l with
  | nil => simp [lookupA, setA, hkk]
  | cons kv rest ih =>
      by_cases hk : kv.1 = k
      · subst hk
        simp [lookupA, setA, hkk]
      · simp [lookupA, setA, hk, ih]

theorem countRuns_append (a b : List Event) :
    countRuns (a ++ b) = countRuns a + countRuns b := by
  simp [countRuns, List.filter_append]

theorem stepMarkers_append (a b : List Event) :
    stepMarkers (a ++ b) = stepMarkers a ++ stepMarkers b := by
  simp [stepMarkers, List.filterMap_append]

theorem runRenderPipeline_disabled (s : Sys)
    (h : s.comp.renderPipelineEnabled = false) : runRenderPipeline s = (s, []) := by
  simp [runRenderPipeline, h]

theorem runRenderPipeline_notConfigured (s : Sys)
    (he : s.comp.renderPipelineEnabled = true)
    (h : (truthyStr s.comp.rawTemplate && truthyStr s.comp.rawStyles) = false) :
    runRenderPipeline s = (s, [Event.logError configErrorMsg]) := by
  simp [runRenderPipeline, he, h]

theorem runRenderPipeline_active (s : Sys)
    (he : s.comp.renderPipelineEnabled = true)
    (ht : truthyStr s.comp.rawTemplate = true)
    (hs : truthyStr s.comp.rawStyles = true) :
    runRenderPipeline s =
      ((runSteps s s.comp.customRenderPipeline).1,
        Event.pipelineRun :: (runSteps s s.comp.customRenderPipeline).2) := by
  simp [runRenderPipeline, he, ht, hs]

theorem runStep_countRuns (s : Sys) (st : Step) :
    countRuns (runStep s st).2 = 0 := by
  cases st with
  | defaultStep =>
      cases h : s.cfg.tmplEval (templateSource s.comp.rawTemplate) <;>
        simp [runStep, defaultRenderPipeline, evaluateTemplate, renderTemplate, h,
          countRuns, isRun]
  | preHook => simp [runStep, countRuns, isRun]
  | renderHook => simp [runStep, countRuns, isRun]
  | postHook => simp [runStep, countRuns, isRun]

theorem runStep_markers (s : Sys) (st : Step) :
    stepMarkers (runStep s st).2 = [st] := by
  cases st with
  | defaultStep =>
      cases h : s.cfg.tmplEval (templateSource s.comp.rawTemplate) <;>
        simp [runStep, defaultRenderPipeline, evaluateTemplate, renderTemplate, h,
          stepMarkers, stepMarker]
  | preHook => simp [runStep, stepMarkers, stepMarker]
  | renderHook => simp [runStep, stepMarkers, stepMarker]
  | postHook => simp [runStep, stepMarkers, stepMarker]

theorem runSteps_countRuns (l : List Step) : ∀ s : Sys,
    countRuns (runSteps s l).2 = 0 := by
  induction l with
  | nil => intro s; simp [runSteps, countRuns]
  | cons st rest ih =>
      intro s
      simp [runSteps, countRuns_append, runStep_countRuns, ih]

theorem runSteps_markers (l : List Step) : ∀ s : Sys,
    stepMarkers (runSteps s l).2 = l := by
  induction l with
  | nil => intro s; simp [runSteps, stepMarkers]
  | cons st rest ih =>
      intro s
      simp [runSteps, stepMarkers_append, runStep_markers, ih]

theorem countRuns_cons_run (l : List Event) :
    countRuns (Event.pipelineRun :: l) = countRuns l + 1 := by
  simp [countRuns, isRun]

theorem countRuns_runRenderPipeline_active (s : Sys)
    (he : s.comp.renderPipelineEnabled = true)
    (ht : truthyStr s.comp.rawTemplate = true)
    (hs : truthyStr s.comp.rawStyles = true) :
    countRuns (runRenderPipeline s).2 = 1 := by
  rw [runRenderPipeline_active s he ht hs]
  show countRuns (Event.pipelineRun :: (runSteps s s.comp.customRenderPipeline).2) = 1
  rw [countRuns_cons_run, runSteps_countRuns]

/-- The fields of the system that no property assignment can change: the host
configuration and every component field other than the intercepted-property
store and the shadow content. -/
def corePreserved (s s' : Sys) : Prop :=
  s'.cfg = s.cfg ∧
  s'.comp.renderPipelineEnabled = s.comp.renderPipelineEnabled ∧
  s'.comp.rawTemplate = s.comp.rawTemplate ∧
  s'.comp.rawStyles = s.comp.rawStyles ∧
  s'.comp.customRenderPipeline = s.comp.customRenderPipeline

theorem corePreserved_refl (s : Sys) : corePreserved s s :=
  ⟨rfl, rfl, rfl, rfl, rfl⟩

theorem corePreserved_trans {a b c : Sys}
    (h1 : corePreserved a b) (h2 : corePreserved b c) : corePreserved a c := by
  obtain ⟨p1, p2, p3, p4, p5⟩ := h1
  obtain ⟨q1, q2, q3, q4, q5⟩ := h2
  exact ⟨q1.trans p1, q2.trans p2, q3.trans p3, q4.trans p4, q5.trans p5⟩

theorem setInterceptedProperty_disabled (s : Sys) (name : String) (v : Int)
    (h : s.comp.renderPipelineEnabled = false) :
    setInterceptedProperty s name v =
      ({ s with comp :=
          { s.comp with
            shadowProperties := setA s.comp.shadowProperties name v } }, []) := by
  unfold setInterceptedProperty
  exact runRenderPipeline_disabled _ h

theorem assign1_disabled (s : Sys) (name : String) (v : Int)
    (h : s.comp.renderPipelineEnabled = false) :
    (assign1 s name v).2.1 = [] ∧ corePreserved s (assign1 s name v).1 := by
  unfold assign1
  cases hd : lookupA s.props name with
  | none => exact ⟨rfl, rfl, rfl, rfl, rfl, rfl⟩
  | some d =>
      cases d with
      | intercepted =>
          rw [setInterceptedProperty_disabled s name v h]
          exact ⟨rfl, rfl, rfl, rfl, rfl, rfl⟩
      | data v' w c e =>
          cases w with
          | true => exact ⟨rfl, rfl, rfl, rfl, rfl, rfl⟩
          | false => exact ⟨rfl, rfl, rfl, rfl, rfl, rfl⟩
      | hostAccessor t => exact ⟨rfl, rfl, rfl, rfl, rfl, rfl⟩

theorem assignProps_disabled (patch : List (String × Int)) : ∀ s : Sys,
    s.comp.renderPipelineEnabled = false →
    (assignProps s patch).2.1 = [] ∧ corePreserved s (assignProps s patch).1 := by
  induction patch with
  | nil => intro s h; exact ⟨rfl, corePreserved_refl s⟩
  | cons kv rest ih =>
      intro s h
      obtain ⟨hev, hpres⟩ := assign1_disabled s kv.1 kv.2 h
      have h1 : (assign1 s kv.1 kv.2).1.comp.renderPipelineEnabled = false :=
        hpres.2.1.trans h
      obtain ⟨hev2, hpres2⟩ := ih (assign1 s kv.1 kv.2).1 h1
      unfold assignProps
      cases hthrew : (assign1 s kv.1 kv.2).2.2 with
      | true => simpa [hthrew] using ⟨hev, hpres⟩
      | false =>
          refine ⟨?_, ?_⟩
          · simp [hthrew, hev, hev2]
          · simpa [hthrew] using corePreserved_trans hpres hpres2

theorem watchOne_fields (s : Sys) (a : String) :
    (watchOne s a).cfg = s.cfg ∧
    (watchOne s a).comp.renderPipelineEnabled = s.comp.renderPipelineEnabled ∧
    (watchOne s a).comp.rawTemplate = s.comp.rawTemplate ∧
    (watchOne s a).comp.rawStyles = s.comp.rawStyles ∧
    (watchOne s a).comp.customRenderPipeline = s.comp.customRenderPipeline ∧
    (watchOne s a).comp.shadowHTML = s.comp.shadowHTML := by
  unfold watchOne
  cases interceptV (lookupA s.props a) with
  | none => exact ⟨rfl, rfl, rfl, rfl, rfl, rfl⟩
  | some v => exact ⟨rfl, rfl, rfl, rfl, rfl, rfl⟩

theorem watchFold_fields (attrs : List String) : ∀ s : Sys,
    (attrs.foldl watchOne s).cfg = s.cfg ∧
    (attrs.foldl watchOne s).comp.renderPipelineEnabled
      = s.comp.renderPipelineEnabled ∧
    (attrs.foldl watchOne s).comp.rawTemplate = s.comp.rawTemplate ∧
    (attrs.foldl watchOne s).comp.rawStyles = s.comp.rawStyles ∧
    (attrs.foldl watchOne s).comp.customRenderPipeline
      = s.comp.customRenderPipeline ∧
    (attrs.foldl watchOne s).comp.shadowHTML = s.comp.shadowHTML := by
  induction attrs with
  | nil => intro s; exact ⟨rfl, rfl, rfl, rfl, rfl, rfl⟩
  | cons a rest ih =>
      intro s
      obtain ⟨w1, w2, w3, w4, w5, w6⟩ := watchOne_fields s a
      obtain ⟨f1, f2, f3, f4, f5, f6⟩ := ih (watchOne s a)
      exact ⟨f1.trans w1, f2.trans w2, f3.trans w3, f4.trans w4, f5.trans w5,
        f6.trans w6⟩

theorem watchForFieldChanges_fields (s : Sys) :
    (watchForFieldChanges s).cfg = s.cfg ∧
    (watchForFieldChanges s).comp.renderPipelineEnabled
      = s.comp.renderPipelineEnabled ∧
    (watchForFieldChanges s).comp.rawTemplate = s.comp.rawTemplate ∧
    (watchForFieldChanges s).comp.rawStyles = s.comp.rawStyles ∧
    (watchForFieldChanges s).comp.customRenderPipeline
      = s.comp.customRenderPipeline ∧
    (watchForFieldChanges s).comp.shadowHTML = s.comp.shadowHTML := by
  unfold watchForFieldChanges
  cases s.cfg.observedAttributes with
  | none => exact ⟨rfl, rfl, rfl, rfl, rfl, rfl⟩
  | some attrs => exact watchFold_fields attrs s

theorem watchOne_lookup_ne (s : Sys) (a attr : String) (h : a ≠ attr) :
    lookupA (watchOne s a).props attr = lookupA s.props attr ∧
    lookupA (watchOne s a).comp.shadowProperties attr
      = lookupA s.comp.shadowProperties attr := by
  unfold watchOne
  cases interceptV (lookupA s.props a) with
  | none => exact ⟨rfl, rfl⟩
  | some v =>
      exact ⟨lookupA_setA_ne _ _ _ _ fun hc => h hc.symm,
        lookupA_setA_ne _ _ _ _ fun hc => h hc.symm⟩

theorem watchOne_skip (s : Sys) (attr : String)
    (h : interceptV (lookupA s.props attr) = none) : watchOne s attr = s := by
  simp [watchOne, h]

theorem watchFold_stable (attrs : List String) : ∀ (s : Sys) (attr : String),
    lookupA s.props attr = some Desc.intercepted →
    lookupA (attrs.foldl watchOne s).props attr = some Desc.intercepted ∧
    lookupA (attrs.foldl watchOne s).comp.shadowProperties attr
      = lookupA s.comp.shadowProperties attr := by
  induction attrs with
  | nil => intro s attr h; exact ⟨h, rfl⟩
  | cons a rest ih =>
      intro s attr h
      by_cases ha : a = attr
      · subst ha
        have hv : interceptV (lookupA s.props a) = none := by rw [h]; rfl
        rw [List.foldl_cons, watchOne_skip s a hv]
        exact ih s a h
      · obtain ⟨h1, h2⟩ := watchOne_lookup_ne s a attr ha
        rw [List.foldl_cons]
        obtain ⟨p, q⟩ := ih (watchOne s a) attr (h1.trans h)
        exact ⟨p, q.trans h2⟩

theorem watchFold_untouched (attrs : List String) : ∀ (s : Sys) (attr : String),
    interceptV (lookupA s.props attr) = none →
    lookupA (attrs.foldl watchOne s).props attr = lookupA s.props attr ∧
    lookupA (attrs.foldl watchOne s).comp.shadowProperties attr
      = lookupA s.comp.shadowProperties attr := by
  induction attrs with
  | nil => intro s attr h; exact ⟨rfl, rfl⟩
  | cons a rest ih =>
      intro s attr h
      by_cases ha : a = attr
      · subst ha
        rw [List.foldl_cons, watchOne_skip s a h]
        exact ih s a h
      · obtain ⟨h1, h2⟩ := watchOne_lookup_ne s a attr ha
        rw [List.foldl_cons]
        obtain ⟨p, q⟩ := ih (watchOne s a) attr (by rw [h1]; exact h)
        exact ⟨p.trans h1, q.trans h2⟩

theorem watchFold_intercepts (attrs : List String) :
    ∀ (s : Sys) (attr : String) (v : Int), attr ∈ attrs →
    interceptV (lookupA s.props attr) = some v →
    lookupA (attrs.foldl watchOne s).props attr = some Desc.intercepted ∧
    lookupA (attrs.foldl watchOne s).comp.shadowProperties attr = some v := by
  induction attrs with
  | nil => intro s attr v hmem; exact absurd hmem (List.not_mem_nil attr)
  | cons a rest ih =>
      intro s attr v hmem hv
      by_cases ha : a = attr
      · subst ha
        have hw1 : lookupA (watchOne s a).props a = some Desc.intercepted := by
          unfold watchOne
          rw [hv]
          exact lookupA_setA_self _ _ _
        have hw2 : lookupA (watchOne s a).comp.shadowProperties a = some v := by
          unfold watchOne
          rw [hv]
          exact lookupA_setA_self _ _ _
        rw [List.foldl_cons]
        obtain ⟨p, q⟩ := watchFold_stable rest (watchOne s a) a hw1
        exact ⟨p, q.trans hw2⟩
      · have hmem' : attr ∈ rest := by
          cases List.mem_cons.mp hmem with
          | inl hc => exact absurd hc.symm ha
          | inr hr => exact hr
        obtain ⟨h1, h2⟩ := watchOne_lookup_ne s a attr ha
        rw [List.foldl_cons]
        exact ih (watchOne s a) attr v hmem' (by rw [h1]; exact hv)

theorem assign1_not_intercepted (s : Sys) (name : String) (v : Int)
    (h : lookupA s.props name ≠ some Desc.intercepted) :
    (assign1 s name v).2.1 = [] := by
  unfold assign1
  cases hd : lookupA s.props name with
  | none => rfl
  | some d =>
      cases d with
      | intercepted => exact absurd hd h
      | data v' w c e => cases w <;> rfl
      | hostAccessor t => rfl

/-- A concrete host used to instantiate the theorems: two interceptable data
properties `a` and `b`, a non-writable data property `c` (a write to it makes
`Object.assign` throw), and a host accessor `d` whose setter throws. -/
def exCfg : HostCfg :=
  { observedAttributes := some ["a", "b"]
    hasPreRender := false
    hasRender := false
    hasPostRender := false
    tmplEval := fun t => if t = "BOOM" then none else some ("[" ++ t ++ "]") }

def exProps : List (String × Desc) :=
  [("a", Desc.data 1 true true true), ("b", Desc.data 2 true true true),
    ("c", Desc.data 3 false true true), ("d", Desc.hostAccessor true)]

/-- The concrete host after construction and a default `configureTemplate`
call: properties `a` and `b` are intercepted, template and styles are set. -/
def exSys : Sys :=
  (configureTemplate (construct exCfg exProps none none) "T" "S" true true).1

/-- Claim C1: on a host with configured template and styles, a single
`updateProperties(patch)` call that applies without throwing executes the
render pipeline step sequence exactly once, however many keys the patch has:
the writes performed while the pipeline is paused inside `updateProperties`
do not each trigger a render. -/
theorem updateProperties_batches_renders (s : Sys) (patch : List (String × Int))
    (ht : truthyStr s.comp.rawTemplate = true)
    (hs : truthyStr s.comp.rawStyles = true)
    (hok : (updateProperties s patch).2.2 = false) :
    countRuns (updateProperties s patch).2.1 = 1 := by
  have hp : (pauseRenderPipeline s).comp.renderPipelineEnabled = false := rfl
  obtain ⟨hev, hcfg, hen, hT2, hS2, hpipe⟩ :=
    assignProps_disabled patch (pauseRenderPipeline s) hp
  cases hthrew : (assignProps (pauseRenderPipeline s) patch).2.2 with
  | true =>
      exfalso
      unfold updateProperties at hok
      simp [hthrew] at hok
  | false =>
      unfold updateProperties
      simp only [hthrew, Bool.false_eq_true, if_false]
      rw [countRuns_append, hev]
      show 0 + countRuns (runRenderPipeline
        (resumeRenderPipeline (assignProps (pauseRenderPipeline s) patch).1)).2 = 1
      rw [Nat.zero_add]
      apply countRuns_runRenderPipeline_active
      · rfl
      · show truthyStr (assignProps (pauseRenderPipeline s) patch).1.comp.rawTemplate = true
        rw [hT2]
        exact ht
      · show truthyStr (assignProps (pauseRenderPipeline s) patch).1.comp.rawStyles = true
        rw [hS2]
        exact hs

/-- Claim C1 witness: `updateProperties({a:9, b:8})` on the concrete host with
two intercepted properties applies without throwing and runs the pipeline
exactly once. -/
theorem updateProperties_batches_renders_witness :
    (updateProperties exSys [("a", 9), ("b", 8)]).2.2 = false ∧
    countRuns (updateProperties exSys [("a", 9), ("b", 8)]).2.1 = 1 :=
  ⟨by decide,
    updateProperties_batches_renders exSys [("a", 9), ("b", 8)]
      (by decide) (by decide) (by decide)⟩

/-- Claim C2 counterexample: on the concrete host, `updateProperties({c:5})`
throws (property `c` is non-writable, so `Object.assign` raises a
`TypeError`).  The enabled flag is restored and the exception propagates, but
the trace holds zero pipeline executions and zero steps: the claim asserts
that the resume AND the render still happen, yet the `runRenderPipeline()`
call placed after the `try`/`finally` block is skipped when the exception
propagates, so the render does not happen. -/
theorem updateProperties_throw_render_skipped_cex :
    (updateProperties exSys [("c", 5)]).2.2 = true ∧
    (updateProperties exSys [("c", 5)]).1.comp.renderPipelineEnabled = true ∧
    countRuns (updateProperties exSys [("c", 5)]).2.1 = 0 ∧
    countRuns (updateProperties exSys [("c", 5)]).2.1 ≠ 1 := by
  decide

/-- Claim C2 (amended): if applying the patch inside `updateProperties`
throws, the enabled flag is restored to `true` on that exit path and the
exception propagates to the caller unsuppressed, but the trailing render is
skipped: the trace of the call holds no pipeline execution and no step. -/
theorem updateProperties_throw_resumes (s : Sys) (patch : List (String × Int))
    (h : (updateProperties s patch).2.2 = true) :
    (updateProperties s patch).1.comp.renderPipelineEnabled = true ∧
    countRuns (updateProperties s patch).2.1 = 0 ∧
    stepMarkers (updateProperties s patch).2.1 = [] := by
  have hp : (pauseRenderPipeline s).comp.renderPipelineEnabled = false := rfl
  obtain ⟨hev, hcfg, hen, hT2, hS2, hpipe⟩ :=
    assignProps_disabled patch (pauseRenderPipeline s) hp
  cases hthrew : (assignProps (pauseRenderPipeline s) patch).2.2 with
  | false =>
      exfalso
      unfold updateProperties at h
      simp [hthrew] at h
  | true =>
      unfold updateProperties
      simp only [hthrew, if_true]
      refine ⟨rfl, ?_, ?_⟩
      · rw [hev]; rfl
      · rw [hev]; rfl

/-- Claim C2 witness for the amended statement, at the concrete throwing
patch. -/
theorem updateProperties_throw_resumes_witness :
    (updateProperties exSys [("c", 5)]).2.2 = true ∧
    ((updateProperties exSys [("c", 5)]).1.comp.renderPipelineEnabled = true ∧
      countRuns (updateProperties exSys [("c", 5)]).2.1 = 0 ∧
      stepMarkers (updateProperties exSys [("c", 5)]).2.1 = []) :=
  ⟨by decide, updateProperties_throw_resumes exSys [("c", 5)] (by decide)⟩

/-- Claim C3: the step sequence fixed at construction is `[preRender if
present, custom render hook if present otherwise the default render step,
postRender if present]`; exactly one of the custom render hook and the default
step is included, never both (custom is included exactly when the host defines
`render`); and a pipeline invocation on the freshly constructed host with
configured template and styles executes each included step exactly once, in
exactly that order. -/
theorem pipeline_fixed_order (cfg : HostCfg) (props : List (String × Desc))
    (t st : String) (ht : t ≠ "") (hs : st ≠ "") :
    (construct cfg props (some t) (some st)).comp.customRenderPipeline =
      (if cfg.hasPreRender then [Step.preHook] else [])
        ++ [if cfg.hasRender then Step.renderHook else Step.defaultStep]
        ++ (if cfg.hasPostRender then [Step.postHook] else []) ∧
    (construct cfg props (some t) (some st)).comp.customRenderPipeline.count
        Step.renderHook
      + (construct cfg props (some t) (some st)).comp.customRenderPipeline.count
        Step.defaultStep = 1 ∧
    (Step.renderHook ∈
        (construct cfg props (some t) (some st)).comp.customRenderPipeline
      ↔ cfg.hasRender = true) ∧
    stepMarkers (runRenderPipeline (construct cfg props (some t) (some st))).2
      = (construct cfg props (some t) (some st)).comp.customRenderPipeline := by
  have hT : truthyStr (construct cfg props (some t) (some st)).comp.rawTemplate
      = true := by
    simp [construct, strOrNull, truthyStr, ht]
  have hS : truthyStr (construct cfg props (some t) (some st)).comp.rawStyles
      = true := by
    simp [construct, strOrNull, truthyStr, hs]
  refine ⟨rfl, ?_, ?_, ?_⟩
  · cases hpre : cfg.hasPreRender <;> cases hr : cfg.hasRender <;>
      cases hpost : cfg.hasPostRender <;>
      simp [construct, hpre, hr, hpost, List.count_cons, List.count_nil]
  · cases hpre : cfg.hasPreRender <;> cases hr : cfg.hasRender <;>
      cases hpost : cfg.hasPostRender <;>
      simp [construct, hpre, hr, hpost]
  · rw [runRenderPipeline_active _ rfl hT hS]
    have hdrop : stepMarkers (Event.pipelineRun ::
        (runSteps (construct cfg props (some t) (some st))
          (construct cfg props (some t) (some st)).comp.customRenderPipeline).2)
        = stepMarkers (runSteps (construct cfg props (some t) (some st))
          (construct cfg props (some t) (some st)).comp.customRenderPipeline).2 := by
      simp [stepMarkers, stepMarker]
    rw [hdrop, runSteps_markers]

/-- A concrete host declaring all three lifecycle hooks, for the claim C3
witness. -/
def exCfgHooks : HostCfg :=
  { observedAttributes := none
    hasPreRender := true
    hasRender := true
    hasPostRender := true
    tmplEval := fun t => some t }

/-- Claim C3 witness: on a concrete host declaring all three hooks and
constructed with non-empty template and styles, the pipeline shape, the
mutual exclusion, and the executed step order are as stated. -/
theorem pipeline_fixed_order_witness :
    (construct exCfgHooks [] (some "T") (some "S")).comp.customRenderPipeline =
      (if exCfgHooks.hasPreRender then [Step.preHook] else [])
        ++ [if exCfgHooks.hasRender then Step.renderHook else Step.defaultStep]
        ++ (if exCfgHooks.hasPostRender then [Step.postHook] else []) ∧
    (construct exCfgHooks [] (some "T") (some "S")).comp.customRenderPipeline.count
        Step.renderHook
      + (construct exCfgHooks [] (some "T") (some "S")).comp.customRenderPipeline.count
        Step.defaultStep = 1 ∧
    (Step.renderHook ∈
        (construct exCfgHooks [] (some "T") (some "S")).comp.customRenderPipeline
      ↔ exCfgHooks.hasRender = true) ∧
    stepMarkers (runRenderPipeline (construct exCfgHooks [] (some "T") (some "S"))).2
      = (construct exCfgHooks [] (some "T") (some "S")).comp.customRenderPipeline :=
  pipeline_fixed_order exCfgHooks [] "T" "S" (by decide) (by decide)

/-- Claim C5: a `runRenderPipeline` call on an enabled pipeline whose stored
template or styles is absent logs the configuration-missing error, throws
nothing, performs no DOM mutation and runs no step (the state is returned
unchanged and the trace is exactly the log line); and the failure is
recoverable: once template and styles are configured with non-empty strings,
the pipeline executes normally. -/
theorem runRenderPipeline_missing_config (s : Sys)
    (hen : s.comp.renderPipelineEnabled = true)
    (habs : s.comp.rawTemplate = none ∨ s.comp.rawStyles = none) :
    runRenderPipeline s = (s, [Event.logError configErrorMsg]) ∧
    ∀ t st : String, t ≠ "" → st ≠ "" →
      countRuns (configureTemplate s t st true true).2 = 1 := by
  constructor
  · apply runRenderPipeline_notConfigured s hen
    cases habs with
    | inl h => simp [h, truthyStr]
    | inr h => simp [h, truthyStr]
  · intro t st ht hst
    show countRuns (runRenderPipeline (watchForFieldChanges
      { s with comp :=
          { s.comp with rawTemplate := some t, rawStyles := some st } })).2 = 1
    obtain ⟨f1, f2, f3, f4, f5, f6⟩ := watchForFieldChanges_fields
      { s with comp :=
          { s.comp with rawTemplate := some t, rawStyles := some st } }
    apply countRuns_runRenderPipeline_active
    · rw [f2]; exact hen
    · rw [f3]; simp [truthyStr, ht]
    · rw [f4]; simp [truthyStr, hst]

/-- Claim C5 witness: the freshly constructed concrete host has no template;
the call logs and changes nothing, and configuring `"T"`/`"S"` then renders
exactly once. -/
theorem runRenderPipeline_missing_config_witness :
    runRenderPipeline (construct exCfg exProps none none)
      = (construct exCfg exProps none none, [Event.logError configErrorMsg]) ∧
    countRuns (configureTemplate (construct exCfg exProps none none)
      "T" "S" true true).2 = 1 :=
  ⟨(runRenderPipeline_missing_config (construct exCfg exProps none none)
      rfl (Or.inl rfl)).1,
    (runRenderPipeline_missing_config (construct exCfg exProps none none)
      rfl (Or.inl rfl)).2 "T" "S" (by decide) (by decide)⟩

/-- Claim C4: after `watchForFieldChanges` runs on a freshly constructed host,
a name of the observed-attribute list is present in the intercepted-property
store exactly when the host had an own data-valued descriptor for it with the
`configurable`, `writable` and `enumerable` flags all set; a name failing the
conditions is skipped without error: its descriptor is left untouched, and a
later write to it produces no event at all, so it triggers no render. -/
theorem watch_intercepts_iff (cfg : HostCfg) (props : List (String × Desc))
    (t? s? : Option String) (attrs : List String) (attr : String)
    (hobs : cfg.observedAttributes = some attrs) (hmem : attr ∈ attrs) :
    ((lookupA (watchForFieldChanges
        (construct cfg props t? s?)).comp.shadowProperties attr).isSome
      = (interceptV (lookupA props attr)).isSome) ∧
    (interceptV (lookupA props attr) = none →
      lookupA props attr ≠ some Desc.intercepted →
      lookupA (watchForFieldChanges (construct cfg props t? s?)).props attr
        = lookupA props attr ∧
      ∀ v : Int,
        (assign1 (watchForFieldChanges (construct cfg props t? s?)) attr v).2.1
          = []) := by
  have hw : watchForFieldChanges (construct cfg props t? s?)
      = attrs.foldl watchOne (construct cfg props t? s?) := by
    unfold watchForFieldChanges
    have hc : (construct cfg props t? s?).cfg.observedAttributes = some attrs :=
      hobs
    rw [hc]
  constructor
  · cases hi : interceptV (lookupA props attr) with
    | none =>
        rw [hw]
        obtain ⟨p, q⟩ :=
          watchFold_untouched attrs (construct cfg props t? s?) attr hi
        rw [q]
        rfl
    | some v =>
        rw [hw]
        obtain ⟨p, q⟩ :=
          watchFold_intercepts attrs (construct cfg props t? s?) attr v hmem hi
        rw [q]
  · intro hnone hnotint
    rw [hw]
    obtain ⟨p, q⟩ :=
      watchFold_untouched attrs (construct cfg props t? s?) attr hnone
    refine ⟨p, fun v => ?_⟩
    apply assign1_not_intercepted
    rw [p]
    exact hnotint

/-- A concrete host type whose observed attributes include an interceptable
property `a`, a non-writable data property `c`, an accessor property `d`, and
a missing property `e`. -/
def exCfgSkip : HostCfg :=
  { observedAttributes := some ["a", "c", "d", "e"]
    hasPreRender := false
    hasRender := false
    hasPostRender := false
    tmplEval := fun t => some t }

/-- Claim C4 witness, at the observed non-writable property `c`: it is absent
from the store, its descriptor is unchanged, and a write to it emits no
event. -/
theorem watch_intercepts_iff_witness :
    ((lookupA (watchForFieldChanges
        (construct exCfgSkip exProps none none)).comp.shadowProperties "c").isSome
      = (interceptV (lookupA exProps "c")).isSome) ∧
    lookupA (watchForFieldChanges (construct exCfgSkip exProps none none)).props "c"
      = lookupA exProps "c" ∧
    (assign1 (watchForFieldChanges (construct exCfgSkip exProps none none)) "c" 7).2.1
      = [] := by
  have h := watch_intercepts_iff exCfgSkip exProps none none
    ["a", "c", "d", "e"] "c" rfl (by decide)
  exact ⟨h.1, (h.2 (by decide) (by decide)).1, (h.2 (by decide) (by decide)).2 7⟩

/-- Claim C9: re-running `watchForFieldChanges` on a property that is already
intercepted is a no-op for that property: the accessor descriptor stays
redirected and the stored value is not overwritten (the function is total, so
no error occurs). -/
theorem watch_idempotent (s : Sys) (attr : String)
    (h : lookupA s.props attr = some Desc.intercepted) :
    lookupA (watchForFieldChanges s).props attr = some Desc.intercepted ∧
    lookupA (watchForFieldChanges s).comp.shadowProperties attr
      = lookupA s.comp.shadowProperties attr := by
  cases hobs : s.cfg.observedAttributes with
  | none =>
      have hw : watchForFieldChanges s = s := by
        unfold watchForFieldChanges
        rw [hobs]
      rw [hw]
      exact ⟨h, rfl⟩
  | some attrs =>
      have hw : watchForFieldChanges s = attrs.foldl watchOne s := by
        unfold watchForFieldChanges
        rw [hobs]
      rw [hw]
      exact watchFold_stable attrs s attr h

/-- The concrete host right after a first interception pass. -/
def exSysWatched : Sys := watchForFieldChanges (construct exCfg exProps none none)

/-- Claim C9 witness: running interception a second time leaves the already
intercepted property `a` redirected with its stored value untouched. -/
theorem watch_idempotent_witness :
    lookupA (watchForFieldChanges exSysWatched).props "a" = some Desc.intercepted ∧
    lookupA (watchForFieldChanges exSysWatched).comp.shadowProperties "a"
      = lookupA exSysWatched.comp.shadowProperties "a" :=
  watch_idempotent exSysWatched "a" (by decide)

/-- Claim C6: for a host with no custom `render` hook, after
`configureTemplate` with a non-empty template and styles whose evaluation
yields `r`, the rendering scope contains exactly the concatenation
`<style>{styles}</style>{evaluated template}`. -/
theorem default_render_writes_scope (cfg : HostCfg) (props : List (String × Desc))
    (t? s? : Option String) (t st r : String)
    (hr : cfg.hasRender = false) (ht : t ≠ "") (hs : st ≠ "")
    (he : cfg.tmplEval t = some r) :
    (configureTemplate (construct cfg props t? s?) t st true true).1.comp.shadowHTML
      = "<style>" ++ st ++ "</style>" ++ r := by
  show (runRenderPipeline (watchForFieldChanges
      { construct cfg props t? s? with comp :=
          { (construct cfg props t? s?).comp with
            rawTemplate := some t, rawStyles := some st } })).1.comp.shadowHTML
    = "<style>" ++ st ++ "</style>" ++ r
  obtain ⟨f1, f2, f3, f4, f5, f6⟩ := watchForFieldChanges_fields
    { construct cfg props t? s? with comp :=
        { (construct cfg props t? s?).comp with
          rawTemplate := some t, rawStyles := some st } }
  rw [runRenderPipeline_active _ f2 (by rw [f3]; simp [truthyStr, ht])
    (by rw [f4]; simp [truthyStr, hs])]
  rw [f5]
  have hpipe : (construct cfg props t? s?).comp.customRenderPipeline
      = (if cfg.hasPreRender then [Step.preHook] else [])
        ++ [Step.defaultStep]
        ++ (if cfg.hasPostRender then [Step.postHook] else []) := by
    simp [construct, hr]
  rw [show ({ construct cfg props t? s? with comp :=
      { (construct cfg props t? s?).comp with
        rawTemplate := some t, rawStyles := some st } } : Sys).comp.customRenderPipeline
    = (construct cfg props t? s?).comp.customRenderPipeline from rfl, hpipe]
  have he' : (construct cfg props t? s?).cfg.tmplEval t = some r := he
  cases hpre : cfg.hasPreRender <;> cases hpost : cfg.hasPostRender <;>
    simp only [if_true, if_false, List.nil_append, List.cons_append,
      List.append_nil] <;>
    simp [runSteps, runStep, defaultRenderPipeline, evaluateTemplate,
      renderTemplate, f1, f3, f4, templateSource, he']

/-- Claim C6 witness: the concrete hook-less host configured with template
`"T"` and styles `"S"`, whose evaluation of `"T"` yields `"[T]"`, ends with
scope content `<style>S</style>[T]`. -/
theorem default_render_writes_scope_witness :
    (configureTemplate (construct exCfg exProps none none) "T" "S" true true).1.comp.shadowHTML
      = "<style>" ++ "S" ++ "</style>" ++ "[T]" :=
  default_render_writes_scope exCfg exProps none none "T" "S" "[T]"
    rfl (by decide) (by decide) (by decide)

/-- Claim C7: `pauseRenderPipeline` and `resumeRenderPipeline` only toggle the
enabled flag, changing no other state and emitting no event; on a configured
host, a write to an intercepted property while paused stores the value and
produces an empty trace (no step runs), while a write after resuming executes
the render pipeline exactly once. -/
theorem pause_resume_toggle (s : Sys) (name : String) (v : Int)
    (ht : truthyStr s.comp.rawTemplate = true)
    (hs : truthyStr s.comp.rawStyles = true) :
    pauseRenderPipeline s
      = { s with comp := { s.comp with renderPipelineEnabled := false } } ∧
    resumeRenderPipeline s
      = { s with comp := { s.comp with renderPipelineEnabled := true } } ∧
    (setInterceptedProperty (pauseRenderPipeline s) name v).2 = [] ∧
    lookupA (setInterceptedProperty
        (pauseRenderPipeline s) name v).1.comp.shadowProperties name = some v ∧
    countRuns (setInterceptedProperty (resumeRenderPipeline s) name v).2 = 1 := by
  refine ⟨rfl, rfl, ?_, ?_, ?_⟩
  · rw [setInterceptedProperty_disabled _ _ _ rfl]
  · rw [setInterceptedProperty_disabled _ _ _ rfl]
    exact lookupA_setA_self _ _ _
  · unfold setInterceptedProperty
    apply countRuns_runRenderPipeline_active
    · rfl
    · exact ht
    · exact hs

/-- Claim C7 witness at the concrete configured host and its intercepted
property `a`. -/
theorem pause_resume_toggle_witness :
    pauseRenderPipeline exSys
      = { exSys with comp := { exSys.comp with renderPipelineEnabled := false } } ∧
    resumeRenderPipeline exSys
      = { exSys with comp := { exSys.comp with renderPipelineEnabled := true } } ∧
    (setInterceptedProperty (pauseRenderPipeline exSys) "a" 5).2 = [] ∧
    lookupA (setInterceptedProperty
        (pauseRenderPipeline exSys) "a" 5).1.comp.shadowProperties "a" = some 5 ∧
    countRuns (setInterceptedProperty (resumeRenderPipeline exSys) "a" 5).2 = 1 :=
  pause_resume_toggle exSys "a" 5 (by decide) (by decide)

/-- Claim C8: when evaluating the stored template throws, the default render
step catches the failure, reports the evaluation error to the diagnostic
channel, treats the evaluated template as the empty string, and still
completes the render: the rendering scope ends up holding exactly the style
block, nothing is thrown, and no other state changes. -/
theorem template_eval_failure_recovers (s : Sys) (st : String)
    (hS : s.comp.rawStyles = some st)
    (hfail : s.cfg.tmplEval (templateSource s.comp.rawTemplate) = none) :
    defaultRenderPipeline s
      = ({ s with comp :=
            { s.comp with shadowHTML := "<style>" ++ st ++ "</style>" } },
        [Event.logError evalErrorMsg,
          Event.domWrite ("<style>" ++ st ++ "</style>")]) := by
  unfold defaultRenderPipeline evaluateTemplate renderTemplate
  rw [hfail, hS]
  simp [String.append_empty]

/-- The concrete host configured with the template `"BOOM"`, whose evaluation
throws. -/
def exSysBoom : Sys :=
  (configureTemplate (construct exCfg exProps none none) "BOOM" "S" true true).1

/-- Claim C8 witness: on the concrete host whose template evaluation throws,
the default render step logs and leaves only the style block in the scope. -/
theorem template_eval_failure_recovers_witness :
    defaultRenderPipeline exSysBoom
      = ({ exSysBoom with comp :=
            { exSysBoom.comp with shadowHTML := "<style>" ++ "S" ++ "</style>" } },
        [Event.logError evalErrorMsg,
          Event.domWrite ("<style>" ++ "S" ++ "</style>")]) :=
  template_eval_failure_recovers exSysBoom "S" (by decide) (by decide)

theorem configureTemplate_notTruthy (s : Sys) (t st : String)
    (hen : s.comp.renderPipelineEnabled = true)
    (h : (truthyStr (some t) && truthyStr (some st)) = false) :
    configureTemplate s t st true true
      = (watchForFieldChanges
          { s with comp :=
              { s.comp with rawTemplate := some t, rawStyles := some st } },
        [Event.logError configErrorMsg]) := by
  show runRenderPipeline (watchForFieldChanges
      { s with comp :=
          { s.comp with rawTemplate := some t, rawStyles := some st } }) = _
  obtain ⟨f1, f2, f3, f4, f5, f6⟩ := watchForFieldChanges_fields
    { s with comp :=
        { s.comp with rawTemplate := some t, rawStyles := some st } }
  apply runRenderPipeline_notConfigured
  · rw [f2]; exact hen
  · rw [f3, f4]; exact h

/-- Claim C10: the empty string behaves like an absent value at the public
interface: the constructor given an empty template or styles string stores
`null`, and after `configureTemplate` with an empty template or empty styles
the pipeline logs the configuration-missing error and performs no render -
both at the immediate render of `configureTemplate` itself and at any later
`runRenderPipeline` call, which returns the state unchanged. -/
theorem empty_string_like_absent (cfg : HostCfg) (props : List (String × Desc))
    (t? s? : Option String) (t st : String) (h : t = "" ∨ st = "") :
    (construct cfg props (some "") s?).comp.rawTemplate = none ∧
    (construct cfg props t? (some "")).comp.rawStyles = none ∧
    countRuns (configureTemplate (construct cfg props t? s?) t st true true).2
      = 0 ∧
    runRenderPipeline
        (configureTemplate (construct cfg props t? s?) t st true true).1
      = ((configureTemplate (construct cfg props t? s?) t st true true).1,
        [Event.logError configErrorMsg]) := by
  have hfalse : (truthyStr (some t) && truthyStr (some st)) = false := by
    cases h with
    | inl h1 => subst h1; simp [truthyStr]
    | inr h2 => subst h2; simp [truthyStr]
  have hkey := configureTemplate_notTruthy (construct cfg props t? s?) t st
    rfl hfalse
  refine ⟨rfl, rfl, ?_, ?_⟩
  · rw [hkey]
    rfl
  · rw [hkey]
    exact hkey

/-- Claim C10 witness: at the concrete host, with the empty template. -/
theorem empty_string_like_absent_witness :
    (construct exCfg exProps (some "") none).comp.rawTemplate = none ∧
    (construct exCfg exProps none (some "")).comp.rawStyles = none ∧
    countRuns (configureTemplate (construct exCfg exProps none none)
        "" "S" true true).2 = 0 ∧
    runRenderPipeline
        (configureTemplate (construct exCfg exProps none none) "" "S" true true).1
      = ((configureTemplate (construct exCfg exProps none none) "" "S" true true).1,
        [Event.logError configErrorMsg]) :=
  empty_string_like_absent exCfg exProps none none "" "S" (Or.inl rfl)
